import Mathlib

/-!
Verification of the Download Session Controller and Session State Store of
YouTube-Download-Universal, shallowly embedded from the TypeScript source
(src/stores/downloadStore.ts, src/App.tsx, src/components/Sidebar/Sidebar.tsx).
Machine timestamps (JS Date values) are environment inputs and are not part of
the embedded log-entry record; no verified property depends on them.
-/

/-- Download status states (downloadStore.ts, type DownloadStatus). -/
inductive Status where
  | idle
  | validating
  | downloading
  | converting
  | success
  | error
deriving DecidableEq, Repr

/-- Log levels (downloadStore.ts, type LogLevel). -/
inductive LogLevel where
  | info
  | warn
  | error
  | success
deriving DecidableEq, Repr

/-- Audio format options (downloadStore.ts, type AudioFormat). -/
inductive AudioFormat where
  | mp3
  | flac
deriving DecidableEq, Repr

/-- Theme options (downloadStore.ts, type Theme). -/
inductive Theme where
  | light
  | dark
deriving DecidableEq, Repr

/-- Download metadata returned from backend (downloadStore.ts, DownloadMetadata).
Numeric duration is embedded as an integer; no claim computes with it. -/
structure DownloadMetadata where
  title : String
  artist : Option String
  album : Option String
  duration : Option Int
  thumbnailPath : Option String
  outputPath : String
deriving DecidableEq, Repr

/-- Error details (downloadStore.ts, DownloadError). -/
structure DownloadError where
  code : String
  message : String
deriving DecidableEq, Repr

/-- One entry of the terminal log (downloadStore.ts, CommonState.logs element);
the JS Date timestamp is environment-supplied and not embedded. -/
structure LogEntry where
  level : LogLevel
  message : String
deriving DecidableEq, Repr

/-- The data fields of the zustand store (downloadStore.ts, DownloadProcessState
and CommonState merged; the action closures are modelled as functions below). -/
structure StoreState where
  status : Status
  metadata : Option DownloadMetadata
  error : Option DownloadError
  progress : Int
  url : String
  format : AudioFormat
  dailyDownloads : Nat
  isGateWarning : Bool
  gateBypass : Bool
  downloadPath : Option String
  theme : Theme
  logs : List LogEntry
deriving DecidableEq, Repr

/-- initialState of the store (downloadStore.ts lines 85-98). -/
def initialState : StoreState :=
  { status := .idle
    metadata := none
    error := none
    progress := 0
    url := ""
    format := .mp3
    dailyDownloads := 0
    isGateWarning := false
    gateBypass := false
    downloadPath := none
    theme := .light
    logs := [] }

/-- setUrl (downloadStore.ts line 103). -/
def setUrl (st : StoreState) (url : String) : StoreState :=
  { st with url := url }

/-- setFormat (downloadStore.ts line 105). -/
def setFormat (st : StoreState) (format : AudioFormat) : StoreState :=
  { st with format := format }

/-- setStatus (downloadStore.ts lines 107-112): metadata is cleared only when
going back to idle; error is kept only when the new status is error. -/
def setStatus (st : StoreState) (status : Status) : StoreState :=
  { st with
    status := status
    metadata := if status = .idle then none else st.metadata
    error := if status = .error then st.error else none }

/-- setProgress (downloadStore.ts line 114): clamps to [0, 100]. -/
def setProgress (st : StoreState) (progress : Int) : StoreState :=
  { st with progress := min 100 (max 0 progress) }

/-- setMetadata (downloadStore.ts lines 116-129): no-op on null; promotes idle
or success status to success, keeps a mid-flight status, clears error. -/
def setMetadata (st : StoreState) (metadata : Option DownloadMetadata) : StoreState :=
  match metadata with
  | none => st
  | some m =>
    let nextStatus := if st.status = .success ∨ st.status = .idle then Status.success else st.status
    { st with status := nextStatus, metadata := some m, error := none }

/-- setError (downloadStore.ts lines 131-136): no-op on null; otherwise forces
status to error and stores the error. -/
def setError (st : StoreState) (error : Option DownloadError) : StoreState :=
  match error with
  | some e => { st with status := .error, error := some e }
  | none => st

/-- addLog (downloadStore.ts lines 138-143): appends one entry after keeping at
most the last 999 existing entries (JS slice(-999) keeps the last 999). -/
def addLog (st : StoreState) (level : LogLevel) (message : String) : StoreState :=
  { st with logs := st.logs.drop (st.logs.length - 999) ++ [⟨level, message⟩] }

/-- clearLogs (downloadStore.ts line 145). -/
def clearLogs (st : StoreState) : StoreState :=
  { st with logs := [] }

/-- setDailyDownloads (downloadStore.ts lines 147-150): also refreshes the gate
warning flag against the 45 threshold. -/
def setDailyDownloads (st : StoreState) (count : Nat) : StoreState :=
  { st with dailyDownloads := count, isGateWarning := decide (count ≥ 45) }

/-- setGateWarning (downloadStore.ts line 152). -/
def setGateWarning (st : StoreState) (warning : Bool) : StoreState :=
  { st with isGateWarning := warning }

/-- setGateBypass (downloadStore.ts line 154). -/
def setGateBypass (st : StoreState) (bypass : Bool) : StoreState :=
  { st with gateBypass := bypass }

/-- setDownloadPath (downloadStore.ts line 156). -/
def setDownloadPath (st : StoreState) (path : Option String) : StoreState :=
  { st with downloadPath := path }

/-- setTheme (downloadStore.ts line 158). -/
def setTheme (st : StoreState) (theme : Theme) : StoreState :=
  { st with theme := theme }

/-- reset (downloadStore.ts lines 160-162): restores every data field. -/
def reset (_st : StoreState) : StoreState :=
  initialState

/-- The store operations quantified over in the invariant claim. -/
inductive Op where
  | setStatus (s : Status)
  | setProgress (p : Int)
  | setMetadata (m : Option DownloadMetadata)
  | setError (e : Option DownloadError)
  | addLog (l : LogLevel) (m : String)
  | reset
deriving DecidableEq, Repr

/-- Interpretation of one operation on the store. -/
def applyOp (st : StoreState) : Op → StoreState
  | .setStatus s => setStatus st s
  | .setProgress p => setProgress st p
  | .setMetadata m => setMetadata st m
  | .setError e => setError st e
  | .addLog l m => addLog st l m
  | .reset => reset st

/-- Interpretation of a sequence of operations, first operation first. -/
def applyOps (st : StoreState) (ops : List Op) : StoreState :=
  ops.foldl applyOp st

/-- The invariant property claimed of every reachable state. -/
def InvariantProp (st : StoreState) : Prop :=
  (st.status = .success → st.metadata ≠ none) ∧ (st.status = .error ↔ st.error ≠ none)

/-- One-direction invariant that does hold: a non-null error forces error status. -/
def ErrInv (st : StoreState) : Prop :=
  st.error ≠ none → st.status = .error

theorem errInv_applyOp (st : StoreState) (op : Op) (h : ErrInv st) : ErrInv (applyOp st op) := by
  cases op with
  | setStatus s =>
    simp only [applyOp, setStatus, ErrInv] at *
    intro he
    by_cases hs : s = Status.error
    · simpa using hs
    · simp [hs] at he
  | setProgress p =>
    simpa [applyOp, setProgress, ErrInv] using h
  | setMetadata m =>
    cases m with
    | none => simpa [applyOp, setMetadata, ErrInv] using h
    | some md => simp [applyOp, setMetadata, ErrInv]
  | setError e =>
    cases e with
    | some er => simp [applyOp, setError, ErrInv]
    | none => simpa [applyOp, setError, ErrInv] using h
  | addLog l m =>
    simpa [applyOp, addLog, ErrInv] using h
  | reset =>
    simp [applyOp, reset, ErrInv, initialState]

theorem errInv_applyOps (ops : List Op) (st : StoreState) (h : ErrInv st) :
    ErrInv (applyOps st ops) := by
  induction ops generalizing st with
  | nil => simpa [applyOps] using h
  | cons op rest ih =>
    simpa [applyOps, List.foldl_cons] using ih (applyOp st op) (errInv_applyOp st op h)

/-- C1 counterexample: the claimed invariant fails on the code. The sequence
consisting of the single call setStatus error reaches a state with status
error and error still null, refuting the iff; the single call
setStatus success reaches status success with metadata null, refuting the
first conjunct. -/
theorem store_invariant_counterexample :
    ¬ InvariantProp (applyOps initialState [Op.setStatus Status.error]) ∧
      ¬ InvariantProp (applyOps initialState [Op.setStatus Status.success]) := by
  constructor
  · intro hinv
    have := hinv.2.mp (by decide)
    exact this (by decide)
  · intro hinv
    have := hinv.1 (by decide)
    exact this (by decide)

/-- C1 amended: for every finite sequence of the six store operations applied
to the initial state, a non-null error field forces status error (the converse
direction and the success-metadata conjunct are refuted by the counterexample). -/
theorem store_error_implies_error_status (ops : List Op)
    (h : (applyOps initialState ops).error ≠ none) :
    (applyOps initialState ops).status = Status.error := by
  exact errInv_applyOps ops initialState (by simp [ErrInv, initialState]) h

/-- Witness for the amended C1 theorem at the sequence [setError some]. -/
theorem store_error_implies_error_status_witness :
    (applyOps initialState [Op.setError (some ⟨"E", "m"⟩)]).status = Status.error :=
  store_error_implies_error_status [Op.setError (some ⟨"E", "m"⟩)] (by decide)

/-- C10: from any state with status error, setMetadata with a non-null value
keeps status error, stores the metadata, and nulls the error field. -/
theorem setMetadata_at_error_status (st : StoreState) (m : DownloadMetadata)
    (h : st.status = Status.error) :
    (setMetadata st (some m)).status = Status.error ∧
      (setMetadata st (some m)).metadata = some m ∧
      (setMetadata st (some m)).error = none := by
  simp [setMetadata, h]

/-- Witness for C10 at a concrete error-status state. -/
theorem setMetadata_at_error_status_witness :
    (setMetadata (setError initialState (some ⟨"E", "m"⟩))
        (some ⟨"t", none, none, none, none, "/out"⟩)).status = Status.error ∧
      (setMetadata (setError initialState (some ⟨"E", "m"⟩))
          (some ⟨"t", none, none, none, none, "/out"⟩)).metadata =
        some ⟨"t", none, none, none, none, "/out"⟩ ∧
      (setMetadata (setError initialState (some ⟨"E", "m"⟩))
          (some ⟨"t", none, none, none, none, "/out"⟩)).error = none :=
  setMetadata_at_error_status (setError initialState (some ⟨"E", "m"⟩))
    ⟨"t", none, none, none, none, "/out"⟩ (by decide)

/-- Outcome of an asynchronous external call (resolved metadata or a rejection
message, as normalized in App.tsx line 185). -/
inductive Outcome where
  | ok (m : DownloadMetadata)
  | err (msg : String)
deriving DecidableEq, Repr

/-- Relative order in which the probe continuation runs on the single-threaded
event loop: before the job continuation, after the job continuation has
finished (after submit settles), or not at all while the session is observed. -/
inductive Schedule where
  | probeFirst
  | probeLate
  | probePending
deriving DecidableEq, Repr

/-- Gate decision the spec calls evaluate. -/
inductive GateDecision where
  | proceed
  | warn
deriving DecidableEq, Repr

/-- Safety-gate condition of handleDownload (App.tsx lines 136-139):
dailyDownloads at least 25 and no bypass means warn, otherwise proceed. -/
def evaluate (dailyCount : Nat) (bypassFlag : Bool) : GateDecision :=
  if 25 ≤ dailyCount ∧ bypassFlag = false then .warn else .proceed

/-- Uppercase rendering of the format (App.tsx line 144, format.toUpperCase()). -/
def AudioFormat.upper : AudioFormat → String
  | .mp3 => "MP3"
  | .flac => "FLAC"

/-- JS truthiness of info.artist or the fallback string (App.tsx line 160):
null and the empty string both fall back. -/
def artistDisplay (artist : Option String) : String :=
  match artist with
  | some a => if a = "" then "Unknown artist" else a
  | none => "Unknown artist"

/-- Synchronous prefix of handleDownload after the gate passes (App.tsx lines
142-144): set status validating and append the two info log lines. -/
def startLogs (st : StoreState) (url : String) : StoreState :=
  addLog (addLog (setStatus st .validating) .info ("Starting download for: " ++ url))
    .info ("Format: " ++ st.format.upper)

/-- Continuation attached to the probe call (App.tsx lines 156-165): on
resolution, only when status is not yet success, store the metadata and log an
info line naming title and artist; on rejection, do nothing to the store. -/
def probeCont (probe : Outcome) (s : StoreState) : StoreState :=
  match probe with
  | .ok info =>
    if s.status ≠ .success then
      addLog (setMetadata s (some info)) .info
        ("Found: " ++ info.title ++ " (" ++ artistDisplay info.artist ++ ")")
    else s
  | .err _ => s

/-- Continuation of the awaited job call (App.tsx lines 168-191): on success,
store the result, set status success, log one or two success lines and bump the
daily counter from its pre-submit value; on failure, set the normalized error
and log one error line. count0 is the dailyDownloads closure value captured at
submit entry. -/
def jobCont (count0 : Nat) (job : Outcome) (s : StoreState) : StoreState :=
  match job with
  | .ok result =>
    let s1 := setMetadata s (some result)
    let s2 := setStatus s1 .success
    let s3 := addLog s2 .success ("Downloaded: " ++ result.title)
    let s4 := if result.outputPath ≠ "" then addLog s3 .success ("Saved to: " ++ result.outputPath)
      else s3
    setDailyDownloads s4 (count0 + 1)
  | .err msg =>
    addLog (setError s (some ⟨"DOWNLOAD_FAILED", msg⟩)) .error ("Download failed: " ++ msg)

/-- Result of one submit invocation: the store state when the async function
settles, the store state after a late probe continuation has also run, and
whether the two external calls were started. -/
structure SubmitResult where
  settled : StoreState
  final : StoreState
  probeStarted : Bool
  jobStarted : Bool
deriving DecidableEq, Repr

/-- handleDownload (App.tsx lines 134-196) for one URL, with the outcomes of
the two external calls and their interleaving given as inputs. The controller
is a total function: it never throws. The history write on success goes to
external storage, not to this store, and is verified separately below. -/
def submit (st : StoreState) (url : String) (probe job : Outcome) (sched : Schedule) :
    SubmitResult :=
  match evaluate st.dailyDownloads st.gateBypass with
  | .warn =>
    let warned := setGateWarning st true
    ⟨warned, warned, false, false⟩
  | .proceed =>
    let s := startLogs st url
    let settled :=
      match sched with
      | .probeFirst => jobCont st.dailyDownloads job (probeCont probe s)
      | .probeLate => jobCont st.dailyDownloads job s
      | .probePending => jobCont st.dailyDownloads job s
    let final :=
      match sched with
      | .probeLate => probeCont probe settled
      | _ => settled
    ⟨settled, final, true, true⟩

/-- C2: the gate decision is proceed exactly when the count is below 25 or the
bypass flag is set, warn exactly otherwise, and submit starts the job exactly
under the proceed condition. -/
theorem gate_decision_characterization (n : Nat) (b : Bool) (st : StoreState)
    (url : String) (probe job : Outcome) (sched : Schedule) :
    (evaluate n b = .proceed ↔ (n < 25 ∨ b = true)) ∧
      (evaluate n b = .warn ↔ (25 ≤ n ∧ b = false)) ∧
      ((submit st url probe job sched).jobStarted = true ↔
        (st.dailyDownloads < 25 ∨ st.gateBypass = true)) := by
  refine ⟨?_, ?_, ?_⟩
  · unfold evaluate
    rcases Nat.lt_or_ge n 25 with hn | hn
    · rcases b with _ | _ <;> simp [Nat.not_le.mpr hn, hn]
    · rcases b with _ | _ <;> simp [hn, Nat.not_lt.mpr hn]
  · unfold evaluate
    rcases Nat.lt_or_ge n 25 with hn | hn
    · rcases b with _ | _ <;> simp [Nat.not_le.mpr hn, hn]
    · rcases b with _ | _ <;> simp [hn, Nat.not_lt.mpr hn]
  · unfold submit evaluate
    rcases Nat.lt_or_ge st.dailyDownloads 25 with hn | hn
    · rcases hb : st.gateBypass with _ | _ <;> simp [hb, Nat.not_le.mpr hn, hn]
    · rcases hb : st.gateBypass with _ | _ <;> simp [hb, hn, Nat.not_lt.mpr hn]

theorem jobCont_status (c : Nat) (job : Outcome) (s : StoreState) :
    (jobCont c job s).status =
      (match job with | .ok _ => Status.success | .err _ => Status.error) := by
  cases job with
  | ok r =>
    simp only [jobCont, setDailyDownloads, setMetadata, setStatus, addLog]
    split <;> rfl
  | err m => rfl

theorem jobCont_daily (c : Nat) (job : Outcome) (s : StoreState) :
    (jobCont c job s).dailyDownloads =
      (match job with | .ok _ => c + 1 | .err _ => s.dailyDownloads) := by
  cases job with
  | ok r => simp only [jobCont, setDailyDownloads, setMetadata, setStatus, addLog]
  | err m => rfl

theorem probeCont_of_success (p : Outcome) (s : StoreState) (h : s.status = Status.success) :
    probeCont p s = s := by
  cases p with
  | ok info => simp [probeCont, h]
  | err m => rfl

theorem probeCont_status (p : Outcome) (s : StoreState) (h : s.status ≠ Status.idle) :
    (probeCont p s).status = s.status := by
  cases p with
  | ok info =>
    by_cases hs : s.status = Status.success
    · simp [probeCont, hs]
    · simp [probeCont, hs, setMetadata, addLog, h]
  | err m => rfl

theorem probeCont_daily (p : Outcome) (s : StoreState) :
    (probeCont p s).dailyDownloads = s.dailyDownloads := by
  cases p with
  | ok info =>
    by_cases hs : s.status = Status.success
    · simp [probeCont, hs]
    · simp [probeCont, hs, setMetadata, addLog]
  | err m => rfl

theorem startLogs_status (st : StoreState) (url : String) :
    (startLogs st url).status = Status.validating := rfl

theorem startLogs_daily (st : StoreState) (url : String) :
    (startLogs st url).dailyDownloads = st.dailyDownloads := rfl

theorem gate_proceed_of_pass (st : StoreState)
    (h : st.dailyDownloads < 25 ∨ st.gateBypass = true) :
    evaluate st.dailyDownloads st.gateBypass = GateDecision.proceed := by
  unfold evaluate
  rcases h with h | h
  · simp [Nat.not_le.mpr h]
  · simp [h]

/-- C3: the probe continuation is a no-op once status is success, it never
changes the status of any non-idle state (in particular it never sets a
terminal status), and whenever the gate lets submit proceed, the status at
settle time and after a late probe continuation is success exactly on job
resolution and error exactly on job rejection, under every interleaving. -/
theorem probe_job_ordering (s : StoreState) (p : Outcome) (st : StoreState)
    (url : String) (probe job : Outcome) (sched : Schedule) :
    (s.status = Status.success → probeCont p s = s) ∧
      (s.status ≠ Status.idle → (probeCont p s).status = s.status) ∧
      ((st.dailyDownloads < 25 ∨ st.gateBypass = true) →
        (submit st url probe job sched).settled.status =
            (match job with | .ok _ => Status.success | .err _ => Status.error) ∧
          (submit st url probe job sched).final.status =
            (match job with | .ok _ => Status.success | .err _ => Status.error)) := by
  refine ⟨probeCont_of_success p s, probeCont_status p s, ?_⟩
  intro hgate
  have hp := gate_proceed_of_pass st hgate
  have hsettle : (submit st url probe job sched).settled.status =
      (match job with | .ok _ => Status.success | .err _ => Status.error) := by
    cases sched <;> simp [submit, hp, jobCont_status]
  refine ⟨hsettle, ?_⟩
  cases sched with
  | probeFirst => simpa [submit, hp] using hsettle
  | probePending => simpa [submit, hp] using hsettle
  | probeLate =>
    have hne : (submit st url probe job Schedule.probeLate).settled.status ≠ Status.idle := by
      rw [hsettle]; cases job <;> simp
    have hfin : (submit st url probe job Schedule.probeLate).final =
        probeCont probe (submit st url probe job Schedule.probeLate).settled := by
      simp [submit, hp]
    rw [hfin, probeCont_status probe _ hne]
    exact hsettle

/-- Witness for C3 at a success-status state and a gate-passing store. -/
theorem probe_job_ordering_witness :
    (probeCont (Outcome.err "p") (setStatus initialState Status.success) =
        setStatus initialState Status.success) ∧
      ((probeCont (Outcome.err "p") (setStatus initialState Status.success)).status =
        (setStatus initialState Status.success).status) ∧
      ((submit initialState "u" (Outcome.err "p") (Outcome.ok ⟨"t", none, none, none, none, "/o"⟩)
            Schedule.probeLate).settled.status = Status.success ∧
        (submit initialState "u" (Outcome.err "p") (Outcome.ok ⟨"t", none, none, none, none, "/o"⟩)
            Schedule.probeLate).final.status = Status.success) := by
  have h := probe_job_ordering (setStatus initialState Status.success) (Outcome.err "p")
    initialState "u" (Outcome.err "p") (Outcome.ok ⟨"t", none, none, none, none, "/o"⟩)
    Schedule.probeLate
  exact ⟨h.1 (by decide), h.2.1 (by decide), h.2.2 (by decide)⟩

/-- C5: the daily counter after submit (at settle time and after any late probe
continuation) is the pre-submit value plus one exactly when the gate proceeds
and the job call succeeds, and is unchanged when the gate warns or the job call
fails. -/
theorem daily_counter_update (st : StoreState) (url : String) (probe job : Outcome)
    (sched : Schedule) :
    (submit st url probe job sched).settled.dailyDownloads =
        (match evaluate st.dailyDownloads st.gateBypass, job with
         | .warn, _ => st.dailyDownloads
         | .proceed, .ok _ => st.dailyDownloads + 1
         | .proceed, .err _ => st.dailyDownloads) ∧
      (submit st url probe job sched).final.dailyDownloads =
        (match evaluate st.dailyDownloads st.gateBypass, job with
         | .warn, _ => st.dailyDownloads
         | .proceed, .ok _ => st.dailyDownloads + 1
         | .proceed, .err _ => st.dailyDownloads) := by
  cases hg : evaluate st.dailyDownloads st.gateBypass with
  | warn => simp [submit, hg, setGateWarning]
  | proceed =>
    cases sched <;> cases job <;>
      simp [submit, hg, jobCont_daily, probeCont_daily, startLogs_daily]

/-- C6: when the counter is at least 25 and the bypass flag is off, submit only
turns the gate-warning flag on; status, metadata, error, progress, logs, format
and the daily counter are unchanged and neither external call is started. -/
theorem warned_attempt_frame (st : StoreState) (url : String) (probe job : Outcome)
    (sched : Schedule) (h1 : 25 ≤ st.dailyDownloads) (h2 : st.gateBypass = false) :
    (submit st url probe job sched).final = { st with isGateWarning := true } ∧
      (submit st url probe job sched).settled = { st with isGateWarning := true } ∧
      (submit st url probe job sched).probeStarted = false ∧
      (submit st url probe job sched).jobStarted = false ∧
      (submit st url probe job sched).final.status = st.status ∧
      (submit st url probe job sched).final.metadata = st.metadata ∧
      (submit st url probe job sched).final.error = st.error ∧
      (submit st url probe job sched).final.progress = st.progress ∧
      (submit st url probe job sched).final.logs = st.logs ∧
      (submit st url probe job sched).final.format = st.format ∧
      (submit st url probe job sched).final.dailyDownloads = st.dailyDownloads := by
  have hg : evaluate st.dailyDownloads st.gateBypass = GateDecision.warn := by
    unfold evaluate
    simp [h1, h2]
  simp [submit, hg, setGateWarning]

/-- Witness for C6 at a store with counter 30 and bypass off. -/
theorem warned_attempt_frame_witness :
    (submit (setDailyDownloads initialState 30) "u" (Outcome.err "p") (Outcome.err "j")
          Schedule.probeFirst).final =
        { setDailyDownloads initialState 30 with isGateWarning := true } ∧
      (submit (setDailyDownloads initialState 30) "u" (Outcome.err "p") (Outcome.err "j")
            Schedule.probeFirst).settled =
        { setDailyDownloads initialState 30 with isGateWarning := true } ∧
      (submit (setDailyDownloads initialState 30) "u" (Outcome.err "p") (Outcome.err "j")
            Schedule.probeFirst).probeStarted = false ∧
      (submit (setDailyDownloads initialState 30) "u" (Outcome.err "p") (Outcome.err "j")
            Schedule.probeFirst).jobStarted = false ∧
      (submit (setDailyDownloads initialState 30) "u" (Outcome.err "p") (Outcome.err "j")
            Schedule.probeFirst).final.status = (setDailyDownloads initialState 30).status ∧
      (submit (setDailyDownloads initialState 30) "u" (Outcome.err "p") (Outcome.err "j")
            Schedule.probeFirst).final.metadata = (setDailyDownloads initialState 30).metadata ∧
      (submit (setDailyDownloads initialState 30) "u" (Outcome.err "p") (Outcome.err "j")
            Schedule.probeFirst).final.error = (setDailyDownloads initialState 30).error ∧
      (submit (setDailyDownloads initialState 30) "u" (Outcome.err "p") (Outcome.err "j")
            Schedule.probeFirst).final.progress = (setDailyDownloads initialState 30).progress ∧
      (submit (setDailyDownloads initialState 30) "u" (Outcome.err "p") (Outcome.err "j")
            Schedule.probeFirst).final.logs = (setDailyDownloads initialState 30).logs ∧
      (submit (setDailyDownloads initialState 30) "u" (Outcome.err "p") (Outcome.err "j")
            Schedule.probeFirst).final.format = (setDailyDownloads initialState 30).format ∧
      (submit (setDailyDownloads initialState 30) "u" (Outcome.err "p") (Outcome.err "j")
            Schedule.probeFirst).final.dailyDownloads =
        (setDailyDownloads initialState 30).dailyDownloads :=
  warned_attempt_frame (setDailyDownloads initialState 30) "u" (Outcome.err "p")
    (Outcome.err "j") Schedule.probeFirst (by decide) (by decide)

theorem addLog_logs_of_le (s : StoreState) (l : LogLevel) (m : String)
    (h : s.logs.length ≤ 999) : (addLog s l m).logs = s.logs ++ [⟨l, m⟩] := by
  simp [addLog, Nat.sub_eq_zero_of_le h]

theorem startLogs_logs (st : StoreState) (url : String) (h : st.logs.length ≤ 998) :
    (startLogs st url).logs =
      st.logs ++ [⟨.info, "Starting download for: " ++ url⟩,
        ⟨.info, "Format: " ++ st.format.upper⟩] := by
  have l0 : (setStatus st Status.validating).logs = st.logs := rfl
  have hA : (addLog (setStatus st Status.validating) LogLevel.info
      ("Starting download for: " ++ url)).logs =
      st.logs ++ [⟨.info, "Starting download for: " ++ url⟩] := by
    rw [addLog_logs_of_le _ _ _ (by rw [l0]; omega), l0]
  unfold startLogs
  rw [addLog_logs_of_le _ _ _ (by rw [hA]; simp; omega), hA]
  simp

theorem jobCont_err_logs (c : Nat) (m : String) (s : StoreState)
    (h : s.logs.length ≤ 999) :
    (jobCont c (Outcome.err m) s).logs =
      s.logs ++ [⟨.error, "Download failed: " ++ m⟩] := by
  have l0 : (setError s (some ⟨"DOWNLOAD_FAILED", m⟩)).logs = s.logs := rfl
  show (addLog (setError s (some ⟨"DOWNLOAD_FAILED", m⟩)) LogLevel.error
      ("Download failed: " ++ m)).logs = _
  rw [addLog_logs_of_le _ _ _ (by rw [l0]; omega), l0]

theorem jobCont_err_error (c : Nat) (m : String) (s : StoreState) :
    (jobCont c (Outcome.err m) s).error = some ⟨"DOWNLOAD_FAILED", m⟩ := rfl

theorem probeCont_ok_logs (info : DownloadMetadata) (s : StoreState)
    (h : s.logs.length ≤ 999) (hs : s.status ≠ Status.success) :
    (probeCont (Outcome.ok info) s).logs =
      s.logs ++ [⟨.info, "Found: " ++ info.title ++ " (" ++ artistDisplay info.artist ++ ")"⟩] := by
  have l0 : (setMetadata s (some info)).logs = s.logs := rfl
  simp only [probeCont, if_pos hs]
  rw [addLog_logs_of_le _ _ _ (by rw [l0]; omega), l0]

/-- C4: when the gate lets submit proceed and the job call rejects with message
m, submit settles (the controller is a total function, it throws nothing) with
status error and error code DOWNLOAD_FAILED carrying m, and the log entries
appended by this invocation consist of info-level entries followed by exactly
one error-level entry whose message contains m; the length bound keeps the
appends below the log-eviction threshold. -/
theorem job_failure_handling (st : StoreState) (url : String) (probe : Outcome)
    (sched : Schedule) (m : String)
    (hgate : st.dailyDownloads < 25 ∨ st.gateBypass = true)
    (hlogs : st.logs.length ≤ 996) :
    (submit st url probe (Outcome.err m) sched).settled.status = Status.error ∧
      (submit st url probe (Outcome.err m) sched).settled.error =
        some ⟨"DOWNLOAD_FAILED", m⟩ ∧
      (∃ mid : List LogEntry, (∀ e ∈ mid, e.level = LogLevel.info) ∧
        (submit st url probe (Outcome.err m) sched).settled.logs =
          st.logs ++
            ([⟨LogLevel.info, "Starting download for: " ++ url⟩,
              ⟨LogLevel.info, "Format: " ++ st.format.upper⟩] ++ mid ++
              [⟨LogLevel.error, "Download failed: " ++ m⟩]) ∧
        (([⟨LogLevel.info, "Starting download for: " ++ url⟩,
            ⟨LogLevel.info, "Format: " ++ st.format.upper⟩] : List LogEntry) ++ mid ++
            ([⟨LogLevel.error, "Download failed: " ++ m⟩] : List LogEntry)).countP
          (fun e : LogEntry => e.level == LogLevel.error) = 1) ∧
      (∃ pre suf : String, "Download failed: " ++ m = pre ++ m ++ suf) := by
  have hp := gate_proceed_of_pass st hgate
  have hsl : (startLogs st url).logs =
      st.logs ++ [⟨LogLevel.info, "Starting download for: " ++ url⟩,
        ⟨LogLevel.info, "Format: " ++ st.format.upper⟩] :=
    startLogs_logs st url (by omega)
  have hslen : (startLogs st url).logs.length = st.logs.length + 2 := by
    rw [hsl]; simp
  refine ⟨?_, ?_, ?_, ⟨"Download failed: ", "", by simp⟩⟩
  · cases sched <;> simp [submit, hp, jobCont_status]
  · cases sched <;> simp [submit, hp, jobCont_err_error]
  · cases sched with
    | probeFirst =>
      cases probe with
      | ok info =>
        have hstat : (startLogs st url).status ≠ Status.success := by
          rw [startLogs_status]; simp
        have hpl : (probeCont (Outcome.ok info) (startLogs st url)).logs =
            (startLogs st url).logs ++
              [⟨LogLevel.info,
                "Found: " ++ info.title ++ " (" ++ artistDisplay info.artist ++ ")"⟩] :=
          probeCont_ok_logs info _ (by omega) hstat
        have hpllen : (probeCont (Outcome.ok info) (startLogs st url)).logs.length =
            st.logs.length + 3 := by
          rw [hpl]; simp [hslen]
        have hsub : (submit st url (Outcome.ok info) (Outcome.err m)
            Schedule.probeFirst).settled =
            jobCont st.dailyDownloads (Outcome.err m)
              (probeCont (Outcome.ok info) (startLogs st url)) := by
          simp [submit, hp]
        refine ⟨[⟨LogLevel.info,
          "Found: " ++ info.title ++ " (" ++ artistDisplay info.artist ++ ")"⟩],
          by simp, ?_, by rfl⟩
        rw [hsub, jobCont_err_logs _ _ _ (by omega), hpl, hsl]
        simp
      | err p =>
        have hsub : (submit st url (Outcome.err p) (Outcome.err m)
            Schedule.probeFirst).settled =
            jobCont st.dailyDownloads (Outcome.err m) (startLogs st url) := by
          simp [submit, hp, probeCont]
        refine ⟨[], by simp, ?_, by rfl⟩
        rw [hsub, jobCont_err_logs _ _ _ (by omega), hsl]
        simp
    | probeLate =>
      have hsub : (submit st url probe (Outcome.err m) Schedule.probeLate).settled =
          jobCont st.dailyDownloads (Outcome.err m) (startLogs st url) := by
        simp [submit, hp]
      refine ⟨[], by simp, ?_, by rfl⟩
      rw [hsub, jobCont_err_logs _ _ _ (by omega), hsl]
      simp
    | probePending =>
      have hsub : (submit st url probe (Outcome.err m) Schedule.probePending).settled =
          jobCont st.dailyDownloads (Outcome.err m) (startLogs st url) := by
        simp [submit, hp]
      refine ⟨[], by simp, ?_, by rfl⟩
      rw [hsub, jobCont_err_logs _ _ _ (by omega), hsl]
      simp

/-- Witness for C4 at the initial store with a rejecting probe and job. -/
theorem job_failure_handling_witness :
    (submit initialState "u" (Outcome.err "p") (Outcome.err "timeout")
          Schedule.probeFirst).settled.status = Status.error ∧
      (submit initialState "u" (Outcome.err "p") (Outcome.err "timeout")
            Schedule.probeFirst).settled.error = some ⟨"DOWNLOAD_FAILED", "timeout"⟩ ∧
      (∃ mid : List LogEntry, (∀ e ∈ mid, e.level = LogLevel.info) ∧
        (submit initialState "u" (Outcome.err "p") (Outcome.err "timeout")
              Schedule.probeFirst).settled.logs =
          initialState.logs ++
            ([⟨LogLevel.info, "Starting download for: " ++ "u"⟩,
              ⟨LogLevel.info, "Format: " ++ initialState.format.upper⟩] ++ mid ++
              [⟨LogLevel.error, "Download failed: " ++ "timeout"⟩]) ∧
        (([⟨LogLevel.info, "Starting download for: " ++ "u"⟩,
            ⟨LogLevel.info, "Format: " ++ initialState.format.upper⟩] : List LogEntry) ++ mid ++
            ([⟨LogLevel.error, "Download failed: " ++ "timeout"⟩] : List LogEntry)).countP
          (fun e : LogEntry => e.level == LogLevel.error) = 1) ∧
      (∃ pre suf : String, "Download failed: " ++ "timeout" = pre ++ "timeout" ++ suf) :=
  job_failure_handling initialState "u" (Outcome.err "p") Schedule.probeFirst "timeout"
    (by decide) (by decide)

/-- Entry built from the arguments of one appendLog call. -/
def entryOf (lm : LogLevel × String) : LogEntry := ⟨lm.1, lm.2⟩

/-- Iterated appendLog calls, first call first. -/
def foldAddLogs (st : StoreState) (msgs : List (LogLevel × String)) : StoreState :=
  msgs.foldl (fun s lm => addLog s lm.1 lm.2) st

theorem foldAddLogs_cons (st : StoreState) (lm : LogLevel × String)
    (rest : List (LogLevel × String)) :
    foldAddLogs st (lm :: rest) = foldAddLogs (addLog st lm.1 lm.2) rest := by
  simp only [foldAddLogs, List.foldl_cons]

theorem addLog_logs_full (s : StoreState) (l : LogLevel) (m : String)
    (h : s.logs.length = 1000) : (addLog s l m).logs = s.logs.drop 1 ++ [⟨l, m⟩] := by
  simp [addLog, h]

theorem drop_one_append_drop (l m : List LogEntry) (k : Nat) (h : l ≠ []) :
    (l.drop 1 ++ m).drop k = (l ++ m).drop (k + 1) := by
  cases l with
  | nil => exact absurd rfl h
  | cons a t => simp

theorem foldAddLogs_logs (msgs : List (LogLevel × String)) (st : StoreState)
    (h : st.logs.length ≤ 1000) :
    (foldAddLogs st msgs).logs =
      (st.logs ++ msgs.map entryOf).drop (st.logs.length + msgs.length - 1000) := by
  induction msgs generalizing st with
  | nil => simp [foldAddLogs, Nat.sub_eq_zero_of_le h]
  | cons lm rest ih =>
    rcases Nat.lt_or_ge st.logs.length 1000 with hlt | hge
    · have h999 : st.logs.length ≤ 999 := by omega
      have ha := addLog_logs_of_le st lm.1 lm.2 h999
      have hlen1 : (addLog st lm.1 lm.2).logs.length ≤ 1000 := by
        rw [ha]
        simp
        omega
      rw [foldAddLogs_cons, ih _ hlen1, ha]
      simp only [List.append_assoc, List.singleton_append, List.map_cons, entryOf,
        List.length_append, List.length_cons, List.length_nil, Nat.zero_add]
      have hIdx : st.logs.length + 1 + rest.length - 1000 =
          st.logs.length + (rest.length + 1) - 1000 := by omega
      rw [hIdx]
    · have h1000 : st.logs.length = 1000 := Nat.le_antisymm h hge
      have ha := addLog_logs_full st lm.1 lm.2 h1000
      have hlen1 : (addLog st lm.1 lm.2).logs.length ≤ 1000 := by
        rw [ha]
        simp [h1000]
      rw [foldAddLogs_cons, ih _ hlen1, ha]
      have hne : st.logs ≠ [] := by
        intro hc
        rw [hc] at h1000
        simp at h1000
      have hidx : (st.logs.drop 1 ++ [(⟨lm.1, lm.2⟩ : LogEntry)]).length + rest.length - 1000 =
          rest.length := by
        simp [h1000]
      rw [hidx, List.append_assoc, drop_one_append_drop _ _ _ hne]
      simp only [List.singleton_append, List.map_cons, entryOf, List.length_cons]
      have hIdx : st.logs.length + (rest.length + 1) - 1000 = rest.length + 1 := by omega
      rw [hIdx]

/-- C7: starting from an empty log, n appendLog calls leave exactly
min(n, 1000) entries, namely the most recent appends in their original order
(the survivors are the suffix of the appended sequence past the first
n - 1000). -/
theorem log_bound (st : StoreState) (msgs : List (LogLevel × String)) (h : st.logs = []) :
    (foldAddLogs st msgs).logs = (msgs.map entryOf).drop (msgs.length - 1000) ∧
      (foldAddLogs st msgs).logs.length = min msgs.length 1000 := by
  have h0 : st.logs.length ≤ 1000 := by rw [h]; simp
  have hmain := foldAddLogs_logs msgs st h0
  rw [h] at hmain
  simp only [List.nil_append, List.length_nil, Nat.zero_add] at hmain
  refine ⟨hmain, ?_⟩
  rw [hmain]
  simp only [List.length_drop, List.length_map]
  omega

/-- Witness for C7 at the initial store and a two-element list of appends. -/
theorem log_bound_witness :
    (foldAddLogs initialState [(LogLevel.info, "a"), (LogLevel.error, "b")]).logs =
        (([(LogLevel.info, "a"), (LogLevel.error, "b")]).map entryOf).drop
          (([(LogLevel.info, "a"), (LogLevel.error, "b")]).length - 1000) ∧
      (foldAddLogs initialState [(LogLevel.info, "a"), (LogLevel.error, "b")]).logs.length =
        min ([(LogLevel.info, "a"), (LogLevel.error, "b")]).length 1000 :=
  log_bound initialState [(LogLevel.info, "a"), (LogLevel.error, "b")] rfl

/-- One record of the download history (Sidebar.tsx, HistoryItem); the JS Date
timestamp is embedded as a number supplied by the environment. -/
structure HistoryItem where
  url : String
  title : String
  timestamp : Nat
deriving DecidableEq, Repr

/-- saveHistory (Sidebar.tsx lines 36-42): persists only the first 20 records
(JS slice(0, 20)). -/
def saveHistory (history : List HistoryItem) : List HistoryItem :=
  history.take 20

/-- addToHistory (Sidebar.tsx lines 45-52): the persisted list is loaded,
records with the same URL are removed, the new record is prepended, and the
result is saved. stored is the previously persisted list and now the current
time. -/
def addToHistory (stored : List HistoryItem) (now : Nat) (url : String)
    (title : String) : List HistoryItem :=
  saveHistory (⟨url, title, now⟩ :: stored.filter (fun item => item.url != url))

theorem addToHistory_eq (stored : List HistoryItem) (now : Nat) (url title : String) :
    addToHistory stored now url title =
      ⟨url, title, now⟩ :: (stored.filter (fun item => item.url != url)).take 19 := by
  simp only [addToHistory, saveHistory]
  rfl

/-- C8: addToHistory keeps at most 20 records, puts the new record first, keeps
no other record with the same URL, keeps the surviving old records as a
subsequence of the previous list in their previous order, and preserves
URL-uniqueness of the persisted list. -/
theorem history_upsert (stored : List HistoryItem) (now : Nat) (url title : String) :
    (addToHistory stored now url title).length ≤ 20 ∧
      (addToHistory stored now url title).head? = some ⟨url, title, now⟩ ∧
      (∀ it ∈ (addToHistory stored now url title).tail, it.url ≠ url) ∧
      List.Sublist (addToHistory stored now url title).tail stored ∧
      (stored.Pairwise (fun a b => a.url ≠ b.url) →
        (addToHistory stored now url title).Pairwise (fun a b => a.url ≠ b.url)) := by
  rw [addToHistory_eq]
  refine ⟨?_, rfl, ?_, ?_, ?_⟩
  · simp only [List.length_cons, List.length_take]
    omega
  · intro it hit
    have hmem : it ∈ stored.filter (fun item => item.url != url) :=
      List.take_subset 19 _ (by simpa using hit)
    have := (List.mem_filter.mp hmem).2
    simpa using this
  · exact (List.take_sublist 19 _).trans (List.filter_sublist stored)
  · intro hp
    have hfil : (stored.filter (fun item => item.url != url)).Pairwise
        (fun a b => a.url ≠ b.url) := hp.sublist (List.filter_sublist stored)
    have htake : ((stored.filter (fun item => item.url != url)).take 19).Pairwise
        (fun a b => a.url ≠ b.url) := hfil.sublist (List.take_sublist 19 _)
    refine List.Pairwise.cons ?_ htake
    intro b hb
    have hmem : b ∈ stored.filter (fun item => item.url != url) :=
      List.take_subset 19 _ hb
    have hbu : b.url ≠ url := by simpa using (List.mem_filter.mp hmem).2
    exact fun hc => hbu (by rw [← hc])

/-- Witness for C8 at an empty persisted history, with the URL-uniqueness
premise discharged there. -/
theorem history_upsert_witness :
    (addToHistory [] 0 "u" "t").length ≤ 20 ∧
      (addToHistory [] 0 "u" "t").head? = some ⟨"u", "t", 0⟩ ∧
      (∀ it ∈ (addToHistory [] 0 "u" "t").tail, it.url ≠ "u") ∧
      List.Sublist (addToHistory [] 0 "u" "t").tail [] ∧
      (addToHistory [] 0 "u" "t").Pairwise (fun a b => a.url ≠ b.url) :=
  ⟨(history_upsert [] 0 "u" "t").1, (history_upsert [] 0 "u" "t").2.1,
    (history_upsert [] 0 "u" "t").2.2.1, (history_upsert [] 0 "u" "t").2.2.2.1,
    (history_upsert [] 0 "u" "t").2.2.2.2 (by simp)⟩

/-- checkStatus on startup (App.tsx lines 79-98), modelled as a function of the
platform flag and the optional reply of the external check command: on Android
the effect runs no query and marks setup not required; otherwise setup is
required exactly when a tool is reported missing, and a failed query counts as
required. The second component records whether the external command was
invoked. -/
def checkStatus (isAndroid : Bool) (reply : Option (Bool × Bool)) : Bool × Bool :=
  if isAndroid then (false, false)
  else
    match reply with
    | some s => (!s.1 || !s.2, true)
    | none => (true, true)

/-- C9: on a non-mobile platform with a reported pair of presence flags, setup
is required exactly when not both tools are present; on Android the result is
not-required with no query performed, whatever the external reply would be. -/
theorem provisioning_check (a b : Bool) (q : Option (Bool × Bool)) :
    (checkStatus false (some (a, b))).1 = !(a && b) ∧
      checkStatus true q = (false, false) := by
  constructor
  · cases a <;> cases b <;> rfl
  · rfl
